import Mathlib

/-!
Verification of the recommendation engine of the stock-recommendation
website.  The file gives a shallow embedding of the engine's core
functions — the technical scorer, the sentiment aggregator, the
recommendation combiner, the confidence formula, the keyword sentiment
classifier and the statistical price predictor — and proves theorems
settling the specification claims about them.

Modelling conventions.  Python floats are modelled as rationals; a value
that can be IEEE NaN (a pandas rolling statistic over too short a
window) is modelled as `Option ℚ` with `none` standing for NaN, and the
comparison helpers `ogt`/`olt` below return `false` on `none`, mirroring
IEEE comparisons with NaN.  Python dictionaries with possibly missing
keys are modelled as structures with `Option` fields; the source's
`dict.get(key, default)` becomes `Option.getD`.
-/

namespace StockRec

/-- Price snapshot consumed by the technical scorer: the fields of the
`stock_data` dict that `_run_custom_algorithm` reads with
`.get(key, 0)`; a missing key is `none`. -/
structure StockData where
  current_price : Option ℚ
  change_percent : Option ℚ
  volume : Option ℚ

/-- Indicator bundle consumed by the technical scorer: the fields of the
`technical_indicators` dict read by `_run_custom_algorithm`.  The source
defaults a missing `rsi` to 50 and the other indicators to 0. -/
structure TechnicalIndicators where
  rsi : Option ℚ
  sma_20 : Option ℚ
  sma_50 : Option ℚ
  macd : Option ℚ
  macd_signal : Option ℚ

/-- Result of the technical scorer: the dict
`{action, score, reasons}` returned by `_run_custom_algorithm`. -/
structure AlgorithmResult where
  action : String
  score : ℤ
  reasons : List String
deriving DecidableEq

/-- Embedding of `RecommendationService._run_custom_algorithm`
(`recommendation_service.py`, lines 84-159).  Each rule is modelled as a
pair (score contribution, appended reasons); the source's sequential
`score += k` / `reasons.append` accumulation equals the sum of the
per-rule contributions and the concatenation of the per-rule reason
lists, in the source's fixed rule order. -/
def run_custom_algorithm (sd : StockData) (ti : TechnicalIndicators) : AlgorithmResult :=
  let current_price := sd.current_price.getD 0
  let change_percent := sd.change_percent.getD 0
  let volume := sd.volume.getD 0
  let rsi := ti.rsi.getD 50
  let sma_20 := ti.sma_20.getD 0
  let sma_50 := ti.sma_50.getD 0
  let macd := ti.macd.getD 0
  let macd_signal := ti.macd_signal.getD 0
  let momentum : ℤ × List String :=
    if 2 < change_percent then (2, ["Strong positive momentum"])
    else if 0 < change_percent then (1, ["Positive momentum"])
    else if change_percent < -2 then (-2, ["Strong negative momentum"])
    else if change_percent < 0 then (-1, ["Negative momentum"])
    else (0, [])
  let rsi_rule : ℤ × List String :=
    if rsi < 30 then (2, ["Oversold condition (RSI < 30)"])
    else if 70 < rsi then (-2, ["Overbought condition (RSI > 70)"])
    else if 40 ≤ rsi ∧ rsi ≤ 60 then (1, ["Neutral RSI range"])
    else (0, [])
  let ma_rule : ℤ × List String :=
    if sma_50 < sma_20 ∧ sma_20 < current_price then (2, ["Price above both moving averages"])
    else if current_price < sma_20 ∧ current_price < sma_50 then (-2, ["Price below both moving averages"])
    else (0, [])
  let macd_rule : ℤ × List String :=
    if macd_signal < macd then (1, ["MACD above signal line"])
    else (-1, ["MACD below signal line"])
  let volume_rule : ℤ × List String :=
    if 1000000 < volume then (1, ["High trading volume"])
    else (0, [])
  let score := momentum.1 + rsi_rule.1 + ma_rule.1 + macd_rule.1 + volume_rule.1
  let reasons := momentum.2 ++ rsi_rule.2 ++ ma_rule.2 ++ macd_rule.2 ++ volume_rule.2
  let action := if 3 ≤ score then ("BUY") else if score ≤ -3 then ("SELL") else ("HOLD")
  ⟨action, score, reasons⟩

/-- Momentum rule of spec §4.1, written from the spec's words. -/
def momentum_points (cp : ℚ) : ℤ :=
  if 2 < cp then 2 else if 0 < cp then 1 else if cp < -2 then -2 else if cp < 0 then -1 else 0

/-- RSI rule of spec §4.1, written from the spec's words. -/
def rsi_points (r : ℚ) : ℤ :=
  if r < 30 then 2 else if 70 < r then -2 else if 40 ≤ r ∧ r ≤ 60 then 1 else 0

/-- Moving-average rule of spec §4.1, written from the spec's words. -/
def ma_points (price s20 s50 : ℚ) : ℤ :=
  if s50 < s20 ∧ s20 < price then 2 else if price < s20 ∧ price < s50 then -2 else 0

/-- MACD rule of spec §4.1, written from the spec's words. -/
def macd_points (m ms : ℚ) : ℤ := if ms < m then 1 else -1

/-- Volume rule of spec §4.1, written from the spec's words. -/
def volume_points (v : ℚ) : ℤ := if 1000000 < v then 1 else 0

/-- Decision thresholds of spec §4.1, written from the spec's words. -/
def action_of_score (s : ℤ) : String :=
  if 3 ≤ s then ("BUY") else if s ≤ -3 then ("SELL") else ("HOLD")

/-- C1: for every indicator bundle and price snapshot the technical
scorer's integer score is the sum of the five additive rules of spec
§4.1 and its action follows the BUY/SELL/HOLD thresholds; at the spec's
example input (rsi 25, change 3 %, sma_20 > sma_50 with price above
sma_20, macd above its signal, volume 2,000,000) the score is 8 and the
action is BUY. -/
theorem C1_technical_scorer :
    (∀ sd ti, (run_custom_algorithm sd ti).score =
        momentum_points (sd.change_percent.getD 0)
        + rsi_points (ti.rsi.getD 50)
        + ma_points (sd.current_price.getD 0) (ti.sma_20.getD 0) (ti.sma_50.getD 0)
        + macd_points (ti.macd.getD 0) (ti.macd_signal.getD 0)
        + volume_points (sd.volume.getD 0)
      ∧ (run_custom_algorithm sd ti).action = action_of_score ((run_custom_algorithm sd ti).score))
    ∧ (run_custom_algorithm ⟨some 20, some 3, some 2000000⟩ ⟨some 25, some 10, some 5, some 1, some 0⟩).score = 8
    ∧ (run_custom_algorithm ⟨some 20, some 3, some 2000000⟩ ⟨some 25, some 10, some 5, some 1, some 0⟩).action = ("BUY") := by
  refine ⟨fun sd ti => ?_, ?_, ?_⟩
  · constructor
    · simp only [run_custom_algorithm, momentum_points, rsi_points, ma_points, macd_points,
        volume_points]
      split_ifs <;> norm_num
    · rfl
  · norm_num [run_custom_algorithm]
  · norm_num [run_custom_algorithm]

/-- C7 counterexample: with rsi undefined and every other input zero,
the code's total score is 0 (the missing rsi defaults to 50 and lands in
the neutral 40–60 band, +1, while the MACD rule gives −1), whereas the
claim — rsi treated as 0, oversold, +2 — predicts a total of 1. -/
theorem C7_counterexample :
    (run_custom_algorithm ⟨some 0, some 0, some 0⟩ ⟨none, some 0, some 0, some 0, some 0⟩).score = 0
    ∧ momentum_points 0 + rsi_points 0 + ma_points 0 0 0 + macd_points 0 0 + volume_points 0 = 1
    ∧ (0 : ℤ) ≠ 1 := by
  refine ⟨?_, ?_, by norm_num⟩
  · norm_num [run_custom_algorithm]
  · norm_num [momentum_points, rsi_points, ma_points, macd_points, volume_points]

/-- C7 amended: when the indicator bundle does not define an rsi value,
the technical scorer evaluates its RSI rule with rsi treated as 50 (the
source's `.get('rsi', 50)` default), so an undefined RSI falls in the
40 ≤ rsi ≤ 60 neutral band and contributes +1 to the score. -/
theorem C7_rsi_default (sd : StockData) (ti : TechnicalIndicators) (h : ti.rsi = none) :
    run_custom_algorithm sd ti
      = run_custom_algorithm sd ⟨some 50, ti.sma_20, ti.sma_50, ti.macd, ti.macd_signal⟩
    ∧ rsi_points 50 = 1 := by
  obtain ⟨r, s20, s50, m, ms⟩ := ti
  cases h
  exact ⟨rfl, by norm_num [rsi_points]⟩

/-- Witness for C7's amended theorem at a concrete input. -/
theorem C7_witness :
    (⟨none, some 0, some 0, some 0, some 0⟩ : TechnicalIndicators).rsi = none
    ∧ (run_custom_algorithm ⟨some 0, some 0, some 0⟩ ⟨none, some 0, some 0, some 0, some 0⟩
        = run_custom_algorithm ⟨some 0, some 0, some 0⟩ ⟨some 50, some 0, some 0, some 0, some 0⟩
      ∧ rsi_points 50 = 1) :=
  ⟨rfl, C7_rsi_default ⟨some 0, some 0, some 0⟩ ⟨none, some 0, some 0, some 0, some 0⟩ rfl⟩

/-- One news item as read by `_calculate_market_sentiment`: the two
fields it extracts with `.get('sentiment_score', 0)` and
`.get('sentiment_label', 'neutral')`. -/
structure NewsArticle where
  sentiment_score : Option ℚ
  sentiment_label : Option String

/-- Sentiment summary dict.  On the empty-input path the source returns
only the keys `score`, `label` and `count`; the three per-label counts
are then absent, modelled as `none`. -/
structure SentimentSummary where
  score : ℚ
  label : String
  count : ℕ
  positive_count : Option ℕ
  negative_count : Option ℕ
  neutral_count : Option ℕ
deriving DecidableEq

/-- Label of a news article after the source's default (line 182). -/
def label_of (a : NewsArticle) : String := a.sentiment_label.getD ("neutral")

/-- Embedding of `RecommendationService._calculate_market_sentiment`
(`recommendation_service.py`, lines 169-214).  The source's for-loop
tally — `if label == 'positive'`, `elif label == 'negative'`, `else` —
is modelled by the three corresponding filters. -/
def calculate_market_sentiment (news : List NewsArticle) : SentimentSummary :=
  if news.isEmpty then ⟨0, ("neutral"), 0, none, none, none⟩
  else
    let total_score := (news.map (fun a => a.sentiment_score.getD 0)).sum
    let positive_count := (news.filter (fun a => label_of a == ("positive"))).length
    let negative_count :=
      (news.filter (fun a => !(label_of a == ("positive")) && (label_of a == ("negative")))).length
    let neutral_count :=
      (news.filter (fun a => !(label_of a == ("positive")) && !(label_of a == ("negative")))).length
    let avg_score := total_score / (news.length : ℚ)
    let overall_label :=
      if 1/5 < avg_score then ("positive")
      else if avg_score < -(1/5) then ("negative")
      else ("neutral")
    ⟨avg_score, overall_label, news.length, some positive_count, some negative_count, some neutral_count⟩

/-- Sentiment aggregation as the claim words it, over a sequence of
observations (score, label): degenerate summary on empty input,
otherwise arithmetic mean, per-label tallies, and the ±0.2 label
thresholds. -/
def spec_aggregate (obs : List (ℚ × String)) : SentimentSummary :=
  if obs = [] then ⟨0, ("neutral"), 0, none, none, none⟩
  else
    let mean := (obs.map Prod.fst).sum / (obs.length : ℚ)
    ⟨mean,
     if 1/5 < mean then ("positive") else if mean < -(1/5) then ("negative") else ("neutral"),
     obs.length,
     some ((obs.filter (fun o => o.2 == ("positive"))).length),
     some ((obs.filter (fun o => !(o.2 == ("positive")) && (o.2 == ("negative")))).length),
     some ((obs.filter (fun o => !(o.2 == ("positive")) && !(o.2 == ("negative")))).length)⟩

/-- C4: on every sequence of sentiment observations the aggregator
returns the degenerate summary on empty input and otherwise the mean
score, the per-label tallies, the length, and the ±0.2-thresholded
label; on [(0.5, positive), (−0.5, negative)] it returns score 0, label
neutral, count 2, one positive and one negative. -/
theorem C4_sentiment_aggregator :
    (∀ obs : List (ℚ × String),
      calculate_market_sentiment (obs.map (fun o => ⟨some o.1, some o.2⟩)) = spec_aggregate obs)
    ∧ calculate_market_sentiment
        [⟨some (1/2), some ("positive")⟩, ⟨some (-(1/2)), some ("negative")⟩]
      = ⟨0, ("neutral"), 2, some 1, some 1, some 0⟩ := by
  constructor
  · intro obs
    rcases eq_or_ne obs [] with h | h
    · simp [h, calculate_market_sentiment, spec_aggregate]
    · simp [calculate_market_sentiment, spec_aggregate, h, List.filter_map,
        Function.comp_def, label_of]
  · norm_num [calculate_market_sentiment, label_of]
    decide

/-- Embedding of the action-merge logic of
`RecommendationService._combine_recommendations`
(`recommendation_service.py`, lines 216-262).  The source also builds a
human-readable reasoning string alongside the action and appends a
purely informational ML note when the prediction confidence exceeds
0.7; no claim refers to the reasoning string, so only the returned
`action` is modelled. -/
def combine_recommendations (algorithm_rec : AlgorithmResult) (ms : SentimentSummary) : String :=
  let algorithm_action := algorithm_rec.action
  let sentiment_score := ms.score
  let sentiment_label := ms.label
  if algorithm_action = ("BUY") ∧ sentiment_label = ("negative") then
    (if sentiment_score < -(3/10) then ("HOLD") else ("BUY"))
  else if algorithm_action = ("SELL") ∧ sentiment_label = ("positive") then
    (if 3/10 < sentiment_score then ("HOLD") else ("SELL"))
  else algorithm_action

/-- Combiner action as the claim words it: HOLD on a strong opposing
sentiment (< −0.3 against BUY, > 0.3 against SELL), the algorithm's
action in every other case. -/
def spec_combined_action (a : String) (s : ℚ) (l : String) : String :=
  if a = ("BUY") ∧ l = ("negative") ∧ s < -(3/10) then ("HOLD")
  else if a = ("SELL") ∧ l = ("positive") ∧ 3/10 < s then ("HOLD")
  else a

/-- C2: for every algorithm result and sentiment summary the combiner's
final action is HOLD exactly on the two strong-opposing-sentiment
overrides and the algorithm's action otherwise; BUY with sentiment
(negative, −0.5) yields HOLD while BUY with (negative, −0.1) stays
BUY. -/
theorem C2_combiner :
    (∀ ar ms, combine_recommendations ar ms = spec_combined_action ar.action ms.score ms.label)
    ∧ combine_recommendations ⟨("BUY"), 0, []⟩ ⟨-(1/2), ("negative"), 1, none, none, none⟩ = ("HOLD")
    ∧ combine_recommendations ⟨("BUY"), 0, []⟩ ⟨-(1/10), ("negative"), 1, none, none, none⟩ = ("BUY") := by
  refine ⟨fun ar ms => ?_, ?_, ?_⟩
  · simp only [combine_recommendations, spec_combined_action]
    split_ifs <;> simp_all
  · norm_num [combine_recommendations]
  · norm_num [combine_recommendations]

/-- Embedding of `RecommendationService._calculate_confidence_score`
(`recommendation_service.py`, lines 271-296).  The prediction argument
only contributes its confidence value, passed here directly; the
source's `.get('confidence', 0)` guard means a missing key behaves as
confidence 0, which a caller models by passing 0. -/
def calculate_confidence_score (algorithm_rec : AlgorithmResult) (ms : SentimentSummary)
    (prediction_confidence : ℚ) : ℚ :=
  let algorithm_score := |algorithm_rec.score|
  let base_confidence := min ((algorithm_score : ℚ) / 5) 1 * (3/5)
  let sentiment_confidence := if 0 < ms.count then 1/5 + 1/10 else 1/5
  let ml_confidence := if 1/2 < prediction_confidence then prediction_confidence * (1/5) else 0
  min (base_confidence + sentiment_confidence + ml_confidence) 1

/-- Confidence formula as the claim words it. -/
def spec_confidence (s : ℤ) (count : ℕ) (c : ℚ) : ℚ :=
  min (min ((|s| : ℚ) / 5) 1 * (3/5)
       + (1/5 + (if 0 < count then 1/10 else 0))
       + (if 1/2 < c then c * (1/5) else 0)) 1

/-- The confidence score never falls below the 0.2 sentiment base. -/
theorem confidence_score_lb (ar : AlgorithmResult) (ms : SentimentSummary) (c : ℚ) :
    1/5 ≤ calculate_confidence_score ar ms c := by
  simp only [calculate_confidence_score]
  have hb : (0:ℚ) ≤ min (((|ar.score| : ℤ) : ℚ) / 5) 1 * (3/5) := by
    have h1 : (0:ℚ) ≤ (((|ar.score| : ℤ) : ℚ) / 5) := by positivity
    have h2 : (0:ℚ) ≤ min (((|ar.score| : ℤ) : ℚ) / 5) 1 := le_min h1 (by norm_num)
    nlinarith
  have hs : (1/5 : ℚ) ≤ (if 0 < ms.count then 1/5 + 1/10 else (1/5 : ℚ)) := by
    split_ifs <;> norm_num
  have hm : (0:ℚ) ≤ (if 1/2 < c then c * (1/5) else (0:ℚ)) := by
    split_ifs with h
    · nlinarith
    · norm_num
  exact le_min (by linarith) (by norm_num)

/-- C3: for every algorithm result, sentiment summary and prediction
confidence, the confidence score equals the spec's three-component
formula capped at 1, and it always lies in [0, 1]; at the extreme
algorithm score 100 with no news and a sub-threshold prediction
confidence it evaluates to 0.8. -/
theorem C3_confidence_formula :
    (∀ ar ms c, calculate_confidence_score ar ms c = spec_confidence ar.score ms.count c
      ∧ 0 ≤ calculate_confidence_score ar ms c ∧ calculate_confidence_score ar ms c ≤ 1)
    ∧ calculate_confidence_score ⟨("HOLD"), 100, []⟩ ⟨0, ("neutral"), 0, none, none, none⟩ (3/10)
        = 4/5 := by
  constructor
  · intro ar ms c
    refine ⟨?_, le_trans (by norm_num) (confidence_score_lb ar ms c), min_le_right _ _⟩
    simp only [calculate_confidence_score, spec_confidence]
    push_cast
    split_ifs <;> norm_num
  · norm_num [calculate_confidence_score]

/-- C9: on the non-error path the confidence score is always at least
0.2: the fixed sentiment base component gives a positive lower bound,
tighter than the [0, 1] range the spec states. -/
theorem C9_confidence_lower_bound (ar : AlgorithmResult) (ms : SentimentSummary) (c : ℚ) :
    1/5 ≤ calculate_confidence_score ar ms c :=
  confidence_score_lb ar ms c

/-- Witness for C9 at a concrete input (C9's statement has no premise
beyond its inputs, but the bound is exhibited concretely here). -/
theorem C9_witness :
    1/5 ≤ calculate_confidence_score ⟨("HOLD"), 0, []⟩ ⟨0, ("neutral"), 0, none, none, none⟩ 0 :=
  C9_confidence_lower_bound ⟨("HOLD"), 0, []⟩ ⟨0, ("neutral"), 0, none, none, none⟩ 0

/-- Boolean substring test on character lists, the semantics of
Python's `word in text_lower`: the needle occurs contiguously in the
haystack (an empty needle always occurs). -/
def contains_seq : List Char → List Char → Bool
  | [], needle => needle.isEmpty
  | h :: t, needle => needle.isPrefixOf (h :: t) || contains_seq t needle

/-- Positive keyword list of
`SentimentAnalyzer._analyze_with_keywords` (`sentiment_analyzer.py`,
lines 146-150). -/
def positive_keywords : List String :=
  ["surge", "jump", "rise", "gain", "profit", "earnings", "growth",
   "positive", "bullish", "rally", "breakout", "strong", "up", "higher",
   "beat", "exceed", "outperform", "recovery", "bounce", "climb"]

/-- Negative keyword list of the same function (lines 153-157). -/
def negative_keywords : List String :=
  ["fall", "drop", "decline", "loss", "crash", "bearish", "weak",
   "negative", "down", "plunge", "slump", "concern", "risk", "lower",
   "miss", "disappoint", "underperform", "selloff", "correction"]

/-- Neutral keyword list of the same function (lines 160-163); its
count is computed by the source but never used in the returned
sentiment, so nothing below depends on it. -/
def neutral_keywords : List String :=
  ["stable", "steady", "maintain", "hold", "unchanged", "flat",
   "consolidate", "range", "support", "resistance", "technical"]

/-- Lower-cased character list of a text (`text.lower()`; the keyword
lists are pure ASCII, for which `Char.toLower` agrees with Python). -/
def lower_chars (text : String) : List Char := text.data.map Char.toLower

/-- Number of keywords of a list occurring in the lower-cased text
(each keyword counts at most once, as in the source's generator sum). -/
def keyword_hits (kws : List String) (text : String) : ℕ :=
  (kws.filter (fun w => contains_seq (lower_chars text) w.data)).length

/-- Positive keyword count of a text. -/
def pos_count (text : String) : ℕ := keyword_hits positive_keywords text

/-- Negative keyword count of a text. -/
def neg_count (text : String) : ℕ := keyword_hits negative_keywords text

/-- Result dict of the keyword sentiment classifier. -/
structure KeywordSentimentResult where
  text : String
  sentiment_score : ℚ
  sentiment_label : String
  confidence : ℚ
  model : String
deriving DecidableEq

/-- Embedding of `SentimentAnalyzer._analyze_with_keywords`
(`sentiment_analyzer.py`, lines 142-196). -/
def analyze_with_keywords (text : String) : KeywordSentimentResult :=
  let positive_count := pos_count text
  let negative_count := neg_count text
  if negative_count < positive_count then
    ⟨text, min (4/5) ((positive_count : ℚ) * (1/5)), ("positive"),
     min (9/10) (((positive_count : ℚ) / ((max (positive_count + negative_count) 1 : ℕ) : ℚ)) * (9/10)),
     ("keyword_based")⟩
  else if positive_count < negative_count then
    ⟨text, max (-(4/5)) (-((negative_count : ℚ) * (1/5))), ("negative"),
     min (9/10) (((negative_count : ℚ) / ((max (positive_count + negative_count) 1 : ℕ) : ℚ)) * (9/10)),
     ("keyword_based")⟩
  else
    ⟨text, 0, ("neutral"), 7/10, ("keyword_based")⟩

/-- Keyword classifier output as the claim words it, as a function of
the two match counts (the claim's confidence formula divides by
`p + n` without the source's `max (p + n) 1` guard). -/
def spec_keyword_result (text : String) (p n : ℕ) : KeywordSentimentResult :=
  if n < p then
    ⟨text, min (4/5) ((p : ℚ) * (1/5)), ("positive"),
     min (9/10) (((p : ℚ) / ((p : ℚ) + (n : ℚ))) * (9/10)), ("keyword_based")⟩
  else if p < n then
    ⟨text, -(min (4/5) ((n : ℚ) * (1/5))), ("negative"),
     min (9/10) (((n : ℚ) / ((p : ℚ) + (n : ℚ))) * (9/10)), ("keyword_based")⟩
  else
    ⟨text, 0, ("neutral"), 7/10, ("keyword_based")⟩

/-- C6: for every text the keyword classifier returns exactly the
claim's case analysis on the case-insensitive substring match counts;
on "Stock surges on strong earnings growth" (4 positive matches, 0
negative) it returns label positive, score 0.8, confidence 0.9. -/
theorem C6_keyword_classifier :
    (∀ text, analyze_with_keywords text = spec_keyword_result text (pos_count text) (neg_count text))
    ∧ pos_count ("Stock surges on strong earnings growth") = 4
    ∧ neg_count ("Stock surges on strong earnings growth") = 0
    ∧ analyze_with_keywords ("Stock surges on strong earnings growth")
        = ⟨("Stock surges on strong earnings growth"), 4/5, ("positive"), 9/10, ("keyword_based")⟩ := by
  have key : ∀ text, analyze_with_keywords text
      = spec_keyword_result text (pos_count text) (neg_count text) := by
    intro text
    simp only [analyze_with_keywords, spec_keyword_result]
    rcases lt_trichotomy (neg_count text) (pos_count text) with h | h | h
    · have h1 : 1 ≤ pos_count text + neg_count text := by omega
      have h2 : max (pos_count text + neg_count text) 1 = pos_count text + neg_count text :=
        Nat.max_eq_left h1
      simp only [if_pos h, h2]
      push_cast
      rfl
    · simp [h, lt_irrefl]
    · have h1 : 1 ≤ pos_count text + neg_count text := by omega
      have h2 : max (pos_count text + neg_count text) 1 = pos_count text + neg_count text :=
        Nat.max_eq_left h1
      have h3 : ¬ (neg_count text < pos_count text) := by omega
      simp only [if_neg h3, if_pos h, h2, KeywordSentimentResult.mk.injEq]
      push_cast
      simp [max_neg_neg]
  have hp : pos_count ("Stock surges on strong earnings growth") = 4 := by decide
  have hn : neg_count ("Stock surges on strong earnings growth") = 0 := by decide
  refine ⟨key, hp, hn, ?_⟩
  rw [key, hp, hn]
  norm_num [spec_keyword_result]

/-- C10: for every text the keyword classifier's score lies in
[−0.8, 0.8] and the label always agrees with the sign of the score:
positive forces score ≥ 0.2, negative forces score ≤ −0.2, neutral
forces score = 0 — and the label is always one of the three. -/
theorem C10_keyword_invariants (text : String) :
    (-(4/5) ≤ (analyze_with_keywords text).sentiment_score
      ∧ (analyze_with_keywords text).sentiment_score ≤ 4/5)
    ∧ (((analyze_with_keywords text).sentiment_label = ("positive")
          ∧ 1/5 ≤ (analyze_with_keywords text).sentiment_score)
       ∨ ((analyze_with_keywords text).sentiment_label = ("negative")
          ∧ (analyze_with_keywords text).sentiment_score ≤ -(1/5))
       ∨ ((analyze_with_keywords text).sentiment_label = ("neutral")
          ∧ (analyze_with_keywords text).sentiment_score = 0)) := by
  rcases lt_trichotomy (neg_count text) (pos_count text) with h | h | h
  · have h0 : 1 ≤ pos_count text := by omega
    have hp : (1:ℚ) ≤ (pos_count text : ℚ) := by exact_mod_cast h0
    have hs : (1/5 : ℚ) ≤ min (4/5) ((pos_count text : ℚ) * (1/5)) :=
      le_min (by norm_num) (by nlinarith)
    simp only [analyze_with_keywords, if_pos h]
    exact ⟨⟨by linarith, min_le_left _ _⟩, Or.inl ⟨by trivial, hs⟩⟩
  · simp only [analyze_with_keywords, h, lt_irrefl, if_false, reduceIte]
    norm_num
  · have h3 : ¬ (neg_count text < pos_count text) := by omega
    have h0 : 1 ≤ neg_count text := by omega
    have hn : (1:ℚ) ≤ (neg_count text : ℚ) := by exact_mod_cast h0
    have hub : max (-(4/5) : ℚ) (-((neg_count text : ℚ) * (1/5))) ≤ -(1/5) :=
      max_le (by norm_num) (by nlinarith)
    simp only [analyze_with_keywords, if_neg h3, if_pos h]
    exact ⟨⟨le_max_left _ _, by linarith⟩, Or.inr (Or.inl ⟨by trivial, hub⟩)⟩

/-- Witness for C10 at a concrete text: a single positive keyword
yields the positive label with score 0.2. -/
theorem C10_witness :
    (-(4/5) ≤ (analyze_with_keywords ("surge")).sentiment_score
      ∧ (analyze_with_keywords ("surge")).sentiment_score ≤ 4/5)
    ∧ (((analyze_with_keywords ("surge")).sentiment_label = ("positive")
          ∧ 1/5 ≤ (analyze_with_keywords ("surge")).sentiment_score)
       ∨ ((analyze_with_keywords ("surge")).sentiment_label = ("negative")
          ∧ (analyze_with_keywords ("surge")).sentiment_score ≤ -(1/5))
       ∨ ((analyze_with_keywords ("surge")).sentiment_label = ("neutral")
          ∧ (analyze_with_keywords ("surge")).sentiment_score = 0)) :=
  C10_keyword_invariants ("surge")

/-- NaN-propagating addition on float values (`none` is NaN). -/
def oadd : Option ℚ → Option ℚ → Option ℚ
  | some a, some b => some (a + b)
  | _, _ => none

/-- NaN-propagating subtraction. -/
def osub : Option ℚ → Option ℚ → Option ℚ
  | some a, some b => some (a - b)
  | _, _ => none

/-- NaN-propagating multiplication. -/
def omul : Option ℚ → Option ℚ → Option ℚ
  | some a, some b => some (a * b)
  | _, _ => none

/-- NaN-propagating division.  Rational division by zero yields 0 where
a float would give ±inf/NaN; the predictor theorems therefore carry a
positivity hypothesis on the closes, under which every denominator
reached here is nonzero and the model agrees with the source. -/
def odiv : Option ℚ → Option ℚ → Option ℚ
  | some a, some b => some (a / b)
  | _, _ => none

/-- NaN-propagating absolute value. -/
def oabs : Option ℚ → Option ℚ
  | some a => some |a|
  | none => none

/-- Strict greater-than against a float value: false when the value is
NaN, as in IEEE comparison. -/
def ogt (x : Option ℚ) (c : ℚ) : Bool :=
  match x with
  | some a => decide (c < a)
  | none => false

/-- Strict less-than against a float value: false on NaN. -/
def olt (x : Option ℚ) (c : ℚ) : Bool :=
  match x with
  | some a => decide (a < c)
  | none => false

/-- Python's `min(c, x)` for a float `x` that may be NaN: it keeps the
first argument when the comparison with NaN is false, so
`min(c, nan) = c`. -/
def pymin (c : ℚ) (x : Option ℚ) : ℚ :=
  match x with
  | some a => min c a
  | none => c

/-- Last element of a pandas rolling mean over window `w`
(`series.rolling(window=w).mean().iloc[-1]`): NaN when the series is
shorter than the window, else the mean of the last `w` entries. -/
def rolling_mean_last (w : ℕ) (xs : List ℚ) : Option ℚ :=
  if xs.length < w then none
  else some ((xs.drop (xs.length - w)).sum / (w : ℚ))

/-- Daily percentage changes of a close series
(`closes.pct_change().dropna()`): one entry per consecutive pair.
Rational division by a zero close diverges from the float semantics
(inf/NaN); the theorems below assume positive closes. -/
def pct_change_returns (xs : List ℚ) : List ℚ :=
  List.zipWith (fun prev next => (next - prev) / prev) xs xs.tail

/-- Sample variance (ddof = 1) of the daily returns, i.e. the square of
pandas `returns.std()`: NaN (`none`) when fewer than two returns
exist. -/
def sample_variance (xs : List ℚ) : Option ℚ :=
  let r := pct_change_returns xs
  if r.length < 2 then none
  else
    let n : ℚ := (r.length : ℚ)
    let m := r.sum / n
    some ((r.map (fun x => (x - m) ^ 2)).sum / (n - 1))

/-- The float `returns.std()` of a close series is irrational in
general, so the embedding passes the volatility to the predictor as an
argument and characterises it relationally: it is NaN exactly when the
sample variance is, and otherwise the nonnegative square root of the
sample variance. -/
def IsVolatility (closes : List ℚ) (vol : Option ℚ) : Prop :=
  (sample_variance closes = none ∧ vol = none)
  ∨ (∃ q v, sample_variance closes = some q ∧ vol = some v ∧ 0 ≤ v ∧ v * v = q)

/-- Trend statistic of `_predict_with_statistics`:
`(sma_5 - sma_20) / sma_20` over the fetched closes. -/
def trend_of (closes : List ℚ) : Option ℚ :=
  odiv (osub (rolling_mean_last 5 closes) (rolling_mean_last 20 closes))
    (rolling_mean_last 20 closes)

/-- Prediction dict of `price_predictor.py`.  The `symbol` passthrough
key and the extra `trend`/`volatility` diagnostic keys of the
statistical result are omitted; no claim refers to them. -/
structure PricePrediction where
  current_price : Option ℚ
  predicted_price : Option ℚ
  target_price : Option ℚ
  days_ahead : ℤ
  confidence : ℚ
  direction : String
  model : String
deriving DecidableEq

/-- Embedding of `PricePredictor._get_default_prediction`
(`price_predictor.py`, lines 246-257). -/
def get_default_prediction : PricePrediction :=
  ⟨some 0, some 0, some 0, 5, 3/10, ("neutral"), ("default")⟩

/-- Embedding of `PricePredictor._predict_with_statistics`
(`price_predictor.py`, lines 94-149), as a function of the fetched
close history.  `vol` is the computed `returns.std()` (see
`IsVolatility`); `draw` is the value sampled by
`np.random.normal(0, volatility * 0.3)` in the sideways branch — when
the volatility is NaN that sample is itself NaN, hence the `Option.map`.
The source checks only `hist_data.empty` before taking the statistical
path; a non-empty history shorter than a rolling window produces NaN
statistics, and every NaN comparison selects the else branch. -/
def predict_with_statistics (closes : List ℚ) (vol : Option ℚ) (draw : ℚ)
    (days_ahead : ℤ) : PricePrediction :=
  if closes.isEmpty then get_default_prediction
  else
    let current_price : ℚ := closes.getLastD 0
    let trend := trend_of closes
    let change_and_direction : Option ℚ × String :=
      if ogt trend (1/50) then
        (oadd (some (1/100)) (omul vol (some (1/2))), ("up"))
      else if olt trend (-(1/50)) then
        (osub (some (-(1/100))) (omul vol (some (1/2))), ("down"))
      else
        let predicted_change := vol.map (fun _ => draw)
        (predicted_change, if ogt predicted_change 0 then ("up") else ("down"))
    let predicted_price := omul (some current_price) (oadd (some 1) change_and_direction.1)
    let trend_strength := oabs trend
    let confidence : ℚ :=
      max (3/10)
        (pymin (4/5) (osub (oadd (some (1/2)) (omul trend_strength (some 2))) (omul vol (some 10))))
    ⟨some current_price, predicted_price, predicted_price, days_ahead, confidence,
     change_and_direction.2, ("statistical")⟩

/-- C5 counterexample: the one-bar history [100] is shorter than the
20-period window, yet the statistical predictor does not return the
zero-valued default prediction — it takes the statistical path and
returns a result labelled model = "statistical" (with NaN price
statistics).  The volatility of a one-bar history is NaN. -/
theorem C5_counterexample :
    ([(100 : ℚ)].length < 20)
    ∧ IsVolatility [(100 : ℚ)] none
    ∧ predict_with_statistics [(100 : ℚ)] none 0 5 ≠ get_default_prediction
    ∧ (predict_with_statistics [(100 : ℚ)] none 0 5).model = ("statistical") := by
  have hm : (predict_with_statistics [(100 : ℚ)] none 0 5).model = ("statistical") := rfl
  refine ⟨by norm_num, Or.inl ⟨rfl, rfl⟩, ?_, hm⟩
  intro h
  rw [h] at hm
  exact absurd hm (by decide)

/-- C5 amended: the statistical predictor returns the zero-valued
default prediction exactly when the fetched history is empty (or an
exception occurs); a non-empty history — in particular one shorter than
the 20-period window — takes the statistical path and returns a result
labelled model = "statistical", with NaN propagating through the
undefined rolling statistics. -/
theorem C5_default_only_when_empty :
    (∀ vol draw d, predict_with_statistics [] vol draw d = get_default_prediction)
    ∧ ∀ (closes : List ℚ) (vol : Option ℚ) (draw : ℚ) (d : ℤ),
        (predict_with_statistics closes vol draw d).model
          = if closes.isEmpty then ("default") else ("statistical") := by
  constructor
  · intro vol draw d
    rfl
  · intro closes vol draw d
    rcases closes with _ | ⟨c, cs⟩
    · rfl
    · rfl

/-- C8: for every sufficiently long (≥ 20 bars) positive close history
with trend t = (sma_5 − sma_20)/sma_20 and return volatility v, the
statistical predictor returns direction up with predicted change
0.01 + 0.5·v when t > 0.02 and direction down with predicted change
−0.01 − 0.5·v when t < −0.02, sets predicted_price (and target_price)
to current_price·(1 + change), and in both deterministic branches
returns confidence clamp(0.5 + 2·|t| − 10·v, 0.3, 0.8). -/
theorem C8_trend_branches (closes : List ℚ) (v t draw : ℚ) (d : ℤ)
    (h20 : 20 ≤ closes.length)
    (hpos : ∀ c ∈ closes, 0 < c)
    (hvol : IsVolatility closes (some v))
    (ht : trend_of closes = some t) :
    (1/50 < t →
      predict_with_statistics closes (some v) draw d =
        ⟨some (closes.getLastD 0),
         some (closes.getLastD 0 * (1 + (1/100 + v * (1/2)))),
         some (closes.getLastD 0 * (1 + (1/100 + v * (1/2)))),
         d,
         max (3/10) (min (4/5) (1/2 + |t| * 2 - v * 10)),
         ("up"), ("statistical")⟩)
    ∧ (t < -(1/50) →
      predict_with_statistics closes (some v) draw d =
        ⟨some (closes.getLastD 0),
         some (closes.getLastD 0 * (1 + (-(1/100) - v * (1/2)))),
         some (closes.getLastD 0 * (1 + (-(1/100) - v * (1/2)))),
         d,
         max (3/10) (min (4/5) (1/2 + |t| * 2 - v * 10)),
         ("down"), ("statistical")⟩) := by
  have hne : closes.isEmpty = false := by
    rcases closes with _ | ⟨c, cs⟩
    · simp at h20
    · rfl
  constructor
  · intro h1
    have h1i : (50:ℚ)⁻¹ < t := by rwa [one_div] at h1
    simp [predict_with_statistics, hne, ht, ogt, h1, h1i, oadd, osub, omul, oabs, pymin]
  · intro h1
    have h2 : ¬ ((1:ℚ)/50 < t) := by linarith
    have h1i : t < -(50:ℚ)⁻¹ := by rwa [one_div] at h1
    have h2i : ¬ ((50:ℚ)⁻¹ < t) := by rwa [one_div] at h2
    simp [predict_with_statistics, hne, ht, ogt, olt, h1, h2, h1i, h2i, oadd, osub, omul, oabs,
      pymin]

/-- Close history used to witness C8: geometric growth with ratio 2, so
every daily return equals 1 and the sample variance of the returns is
0, making the volatility itself 0 (and rational). -/
def geom_closes : List ℚ :=
  [1, 2, 4, 8, 16, 32, 64, 128, 256, 512, 1024, 2048, 4096, 8192,
   16384, 32768, 65536, 131072, 262144, 524288]

/-- Witness for C8 on the geometric close history: its trend is
97247/33825 ≈ 2.88 > 0.02, its volatility is 0, and the up-branch
conclusion holds with confidence clamped to 0.8. -/
theorem C8_witness :
    (20 ≤ geom_closes.length ∧ (1:ℚ)/50 < 97247/33825)
    ∧ predict_with_statistics geom_closes (some 0) 0 5 =
        ⟨some (geom_closes.getLastD 0),
         some (geom_closes.getLastD 0 * (1 + (1/100 + 0 * (1/2)))),
         some (geom_closes.getLastD 0 * (1 + (1/100 + 0 * (1/2)))),
         5,
         max (3/10) (min (4/5) (1/2 + |(97247/33825 : ℚ)| * 2 - 0 * 10)),
         ("up"), ("statistical")⟩ := by
  have hq : sample_variance geom_closes = some 0 := by
    norm_num [sample_variance, pct_change_returns, geom_closes]
  have ht : trend_of geom_closes = some (97247/33825) := by
    norm_num [trend_of, rolling_mean_last, geom_closes, odiv, osub]
  refine ⟨⟨by norm_num [geom_closes], by norm_num⟩, ?_⟩
  exact (C8_trend_branches geom_closes 0 (97247/33825) 0 5
    (by norm_num [geom_closes])
    (by norm_num [geom_closes])
    (Or.inr ⟨0, 0, hq, rfl, le_refl 0, by norm_num⟩)
    ht).1 (by norm_num)

end StockRec
